import Mathlib

/-!
Shallow embedding of the QuantumShield repository pieces under verification:

* `src/unnamed/part_009` — the in-memory `AdaptiveKeyRotationService`
  (key creation, expiration, adaptive schedules, rotation, rotation history,
  trigger checks).
* `src/unnamed/part_010` — the cron-driven rotation scheduler
  (`checkScheduledRotations` / `performKeyRotation`).
* `src/backend/routes/threat-detection.js` — the scoring engine
  (`createSecurityAnalyzer`, `getWeightings`, the weighted overall score of
  `scoreAlgorithm`).
* `src/backend/routes/auth.js` — the `/register` handler validation pipeline.
* `src/backend/routes/cryptographic.js` — the `GET /compare` handler.

Modelling conventions:
* JavaScript `Date` values are epoch milliseconds (`Nat`, or `Int` where the
  source subtracts dates).  Each service call receives the current time as an
  explicit `now` parameter; the several `Date.now()` reads inside one call are
  modelled at that single instant.
* JavaScript `Map` objects are functions `Nat → Option α`; `Map.set` is a
  pointwise update.  No modelled operation iterates over a map, so insertion
  order is irrelevant here.
* `generateKeyId` (timestamp + `Math.random()` suffix) is modelled as a fresh
  counter `nextId`: ids are opaque and fresh, which is all the code relies on.
* `Math.random()`-driven quantities that feed a decision (the simulated threat
  level, the simulated compliance issues) are oracle parameters.
* Fractional scores from `threat-detection.js` are exact rationals (`ℚ`).
* The `setTimeout` callback of `scheduleRotation` is asynchronous and is not
  part of any synchronous call's effect; only its queue insertion is modelled.
* `usage.performanceMetrics` (randomly simulated latencies, read by nothing
  modelled here) is omitted from the `KeyUsage` record.
-/

namespace QuantumShield

/-! ## Part 1: Key Lifecycle Manager (`src/unnamed/part_009`) -/

/-- The `purpose` union type `'encryption' | 'signing' | 'key-exchange'`. -/
inductive Purpose where
  | encryption
  | signing
  | keyExchange
deriving DecidableEq

/-- One entry of the `quantumAlgorithms` catalog object. -/
structure AlgSpec where
  keySize : List Nat
  purpose : Purpose
  quantumSecurity : Nat
deriving DecidableEq

/-- The `quantumAlgorithms` catalog, in object-literal order. -/
def quantumAlgorithms : List (String × AlgSpec) :=
  [("CRYSTALS-Kyber", ⟨[512, 768, 1024], .keyExchange, 128⟩),
   ("CRYSTALS-Dilithium", ⟨[2420, 3309, 4627], .signing, 128⟩),
   ("FALCON", ⟨[897, 1793], .signing, 128⟩),
   ("SPHINCS+", ⟨[32, 48, 64], .signing, 256⟩),
   ("SABER", ⟨[672, 992, 1312], .keyExchange, 128⟩),
   ("NTRU", ⟨[699, 930, 1230], .keyExchange, 128⟩)]

/-- `Object.keys(this.quantumAlgorithms).includes(algorithm)`. -/
def isQuantumAlg (algorithm : String) : Bool :=
  (quantumAlgorithms.map Prod.fst).contains algorithm

/-- The `RotationTrigger.type` union. -/
inductive TriggerType where
  | timeBased
  | usageCount
  | threatLevel
  | complianceRequirement
deriving DecidableEq

/-- A `RotationTrigger` record. -/
structure RotationTrigger where
  triggerType : TriggerType
  threshold : ℚ
  enabled : Bool

/-- A `RotationSchedule` record.  `interval` is in hours, `nextRotation` in
epoch milliseconds. -/
structure RotationSchedule where
  interval : Nat
  nextRotation : Nat
  autoRotate : Bool
  adaptiveRotation : Bool
  triggers : List RotationTrigger

/-- The `usage` statistics of a key (`performanceMetrics` omitted, see the
header). -/
structure KeyUsage where
  operationsCount : Nat
  dataVolume : Nat
  lastUsed : Nat

/-- A `CryptographicKey` record. -/
structure CryptographicKey where
  id : Nat
  algorithm : String
  keySize : Nat
  purpose : Purpose
  createdAt : Nat
  expiresAt : Nat
  rotationSchedule : RotationSchedule
  quantumResistant : Bool
  usage : KeyUsage

/-- The mutable state of the `AdaptiveKeyRotationService` instance. -/
structure ServiceState where
  keys : Nat → Option CryptographicKey
  rotationQueue : List Nat
  rotationHistory : Nat → Option (List Nat)
  nextId : Nat

/-- A service instance before any call. -/
def initialState : ServiceState where
  keys := fun _ => none
  rotationQueue := []
  rotationHistory := fun _ => none
  nextId := 0

/-- `Map.set`: pointwise update. -/
def mapSet {α : Type} (m : Nat → Option α) (i : Nat) (v : α) : Nat → Option α :=
  fun j => if j = i then some v else m j

/-- `this.keys.get(keyId)`. -/
def lookupKey (s : ServiceState) (keyId : Nat) : Option CryptographicKey :=
  s.keys keyId

/-- `getRotationHistory`: `this.rotationHistory.get(keyId) || []`. -/
def getRotationHistory (s : ServiceState) (keyId : Nat) : List Nat :=
  (s.rotationHistory keyId).getD []

/-- `calculateExpirationDate`.  The base hours per purpose are 8760 / 17520 /
720; non-quantum algorithms get `baseHours *= 0.5`, which is exact on these
even values, so `Nat` halving is faithful. -/
def calculateExpirationDate (algorithm : String) (purpose : Purpose) (now : Nat) : Nat :=
  let baseHours : Nat :=
    match purpose with
    | .encryption => 8760
    | .signing => 17520
    | .keyExchange => 720
  let baseHours := if isQuantumAlg algorithm then baseHours else baseHours / 2
  now + baseHours * 60 * 60 * 1000

/-- `getBaseRotationInterval` (hours). -/
def getBaseRotationInterval (purpose : Purpose) : Nat :=
  match purpose with
  | .encryption => 168
  | .signing => 720
  | .keyExchange => 24

/-- `getUsageThreshold`. -/
def getUsageThreshold (purpose : Purpose) : Nat :=
  match purpose with
  | .encryption => 1000000
  | .signing => 100000
  | .keyExchange => 10000

/-- `organizationId.includes('enterprise') || organizationId.includes('corp')`,
substring containment spelled with `splitOn`. -/
def isEnterpriseOrganization (organizationId : String) : Bool :=
  (organizationId.splitOn "enterprise").length > 1 ||
    (organizationId.splitOn "corp").length > 1

/-- `createAdaptiveSchedule`.  `baseInterval *= 0.25` for non-quantum
algorithms is exact on the base values 168 / 720 / 24, so `Nat` division by 4
is faithful. -/
def createAdaptiveSchedule (algorithm : String) (purpose : Purpose)
    (organizationId : String) (now : Nat) : RotationSchedule :=
  let isQR := isQuantumAlg algorithm
  let baseInterval := getBaseRotationInterval purpose
  let baseInterval := if isQR then baseInterval else baseInterval / 4
  let triggers : List RotationTrigger :=
    [⟨.timeBased, (baseInterval : ℚ), true⟩,
     ⟨.usageCount, (getUsageThreshold purpose : ℚ), true⟩,
     ⟨.threatLevel, (7 : ℚ) / 10, true⟩]
  let triggers :=
    if isEnterpriseOrganization organizationId then
      triggers ++ [⟨.complianceRequirement, 1, true⟩]
    else triggers
  { interval := baseInterval
    nextRotation := now + baseInterval * 60 * 60 * 1000
    autoRotate := true
    adaptiveRotation := true
    triggers := triggers }

/-- `createKey`: builds the key record, stores it, and runs the synchronous
part of `scheduleRotation` (queue insertion; the key always has
`autoRotate = true`). -/
def createKey (algorithm : String) (keySize : Nat) (purpose : Purpose)
    (organizationId : String) (s : ServiceState) (now : Nat) :
    CryptographicKey × ServiceState :=
  let keyId := s.nextId
  let key : CryptographicKey :=
    { id := keyId
      algorithm := algorithm
      keySize := keySize
      purpose := purpose
      createdAt := now
      expiresAt := calculateExpirationDate algorithm purpose now
      rotationSchedule := createAdaptiveSchedule algorithm purpose organizationId now
      quantumResistant := isQuantumAlg algorithm
      usage := { operationsCount := 0, dataVolume := 0, lastUsed := now } }
  let s1 : ServiceState :=
    { s with keys := mapSet s.keys keyId key, nextId := s.nextId + 1 }
  let s2 : ServiceState :=
    if s1.rotationQueue.contains keyId then s1
    else { s1 with rotationQueue := s1.rotationQueue ++ [keyId] }
  (key, s2)

/-- The `preferences` table of `selectOptimalAlgorithm`. -/
def algorithmPreferences (purpose : Purpose) : List String :=
  match purpose with
  | .encryption => ["CRYSTALS-Kyber", "SABER", "NTRU"]
  | .signing => ["CRYSTALS-Dilithium", "FALCON", "SPHINCS+"]
  | .keyExchange => ["CRYSTALS-Kyber", "SABER", "NTRU"]

/-- `selectOptimalAlgorithm`. -/
def selectOptimalAlgorithm (purpose : Purpose) (currentAlgorithm : String) : String :=
  let quantumOptions :=
    (quantumAlgorithms.filter (fun p => p.2.purpose = purpose)).map Prod.fst
  if quantumOptions.length > 0 then
    match (algorithmPreferences purpose).find? (fun alg => quantumOptions.contains alg) with
    | some alg => alg
    | none => quantumOptions.headD currentAlgorithm
  else currentAlgorithm

/-- `selectOptimalKeySize`: catalog miss keeps the current size, a hit takes
the largest cataloged size (`Math.max` over a non-empty list). -/
def selectOptimalKeySize (algorithm : String) (currentSize : Nat) : Nat :=
  match quantumAlgorithms.find? (fun p => p.1 = algorithm) with
  | none => currentSize
  | some p => p.2.keySize.foldl max 0

/-- `rotateKey`.  A missing key throws before any mutation, so the state is
returned unchanged alongside the error. -/
def rotateKey (keyId : Nat) (s : ServiceState) (now : Nat) :
    Except String CryptographicKey × ServiceState :=
  match lookupKey s keyId with
  | none => (.error ("Key " ++ toString keyId ++ " not found"), s)
  | some existingKey =>
    let newAlgorithm := selectOptimalAlgorithm existingKey.purpose existingKey.algorithm
    let newKeySize := selectOptimalKeySize newAlgorithm existingKey.keySize
    let created := createKey newAlgorithm newKeySize existingKey.purpose "default" s now
    let newKey := created.1
    let s1 := created.2
    let history := (s1.rotationHistory keyId).getD []
    let s2 : ServiceState :=
      { s1 with rotationHistory := mapSet s1.rotationHistory keyId (history ++ [now]) }
    let decommissioned : CryptographicKey :=
      { existingKey with expiresAt := now + 7 * 24 * 60 * 60 * 1000 }
    let s3 : ServiceState :=
      { s2 with keys := mapSet s2.keys keyId decommissioned }
    (.ok newKey, s3)

/-- The result record of `checkRotationTriggers`. -/
structure TriggerCheck where
  shouldRotate : Bool
  reasons : List String
deriving DecidableEq

/-- `checkRotationTriggers`.  The simulated threat level and the simulated
compliance issues are `Math.random()`-driven in the source and enter as oracle
parameters; reason strings are modelled by their fixed prefixes. -/
def checkRotationTriggers (keyId : Nat) (s : ServiceState) (now : Nat)
    (threatLevel : ℚ) (complianceIssues : List String) : TriggerCheck :=
  match lookupKey s keyId with
  | none => ⟨false, []⟩
  | some key =>
    key.rotationSchedule.triggers.foldl
      (fun acc trigger =>
        if !trigger.enabled then acc
        else
          match trigger.triggerType with
          | .timeBased =>
            if key.rotationSchedule.nextRotation ≤ now then
              ⟨true, acc.reasons ++ ["Scheduled rotation time reached"]⟩
            else acc
          | .usageCount =>
            if trigger.threshold ≤ (key.usage.operationsCount : ℚ) then
              ⟨true, acc.reasons ++ ["Usage threshold exceeded"]⟩
            else acc
          | .threatLevel =>
            if trigger.threshold ≤ threatLevel then
              ⟨true, acc.reasons ++ ["High threat level detected"]⟩
            else acc
          | .complianceRequirement =>
            if complianceIssues.length > 0 then
              ⟨true, acc.reasons ++ ["Compliance requirements"]⟩
            else acc)
      ⟨false, []⟩

/-! ## Part 2: Rotation Scheduler (`src/unnamed/part_010`) -/

/-- A `system_configurations` row, restricted to the columns the scheduler
reads.  `keyRotationInterval` is in seconds, as the `* 1000` conversion in
`checkScheduledRotations` shows. -/
structure SystemConfiguration where
  id : Nat
  autoRotationEnabled : Bool
  keyRotationInterval : Nat
  currentAlgorithmId : String
  backupAlgorithmId : Option String
deriving DecidableEq

/-- A `key_rotation_history` row, restricted to the columns the scheduled
scan reads.  `rotationTimestamp` is epoch milliseconds. -/
structure RotationHistoryRow where
  systemConfigId : Nat
  rotationTimestamp : Int
  completionStatus : String
deriving DecidableEq

/-- The `MAX(rotation_timestamp) ... WHERE completion_status = 'completed'
GROUP BY system_config_id` subquery, read for one system: `none` models the
`NULL` of the left join. -/
def lastCompletedRotation (history : List RotationHistoryRow) (sysId : Nat) : Option Int :=
  ((history.filter (fun r => r.systemConfigId = sysId ∧ r.completionStatus = "completed")).map
    (fun r => r.rotationTimestamp)).max?

/-- The per-system test of `checkScheduledRotations`: `new Date(0)` when no
completed rotation exists, then `Date.now() - lastRotation >= interval*1000`. -/
def dueForScheduledRotation (history : List RotationHistoryRow) (now : Int)
    (sc : SystemConfiguration) : Bool :=
  let lastRotation := (lastCompletedRotation history sc.id).getD 0
  let rotationInterval := (sc.keyRotationInterval : Int) * 1000
  let timeSinceRotation := now - lastRotation
  rotationInterval ≤ timeSinceRotation

/-- `checkScheduledRotations`, modelled as the list of `performKeyRotation`
invocations (configuration, trigger) it issues: the SQL `WHERE
sc.auto_rotation_enabled = true` filter, then the elapsed-time test, then a
`performKeyRotation(system.id, 'scheduled', ...)` call per surviving row. -/
def checkScheduledRotations (systems : List SystemConfiguration)
    (history : List RotationHistoryRow) (now : Int) :
    List (SystemConfiguration × String) :=
  ((systems.filter (fun sc => sc.autoRotationEnabled)).filter
    (dueForScheduledRotation history now)).map (fun sc => (sc, "scheduled"))

/-! ## Part 3: Scoring engine (`src/backend/routes/threat-detection.js`) -/

/-- The `maturity` union of an `AlgorithmProfile`. -/
inductive Maturity where
  | standardized
  | draft
  | experimental
  | deprecatedAlg
deriving DecidableEq

/-- The `security` sub-record of an `AlgorithmProfile`, restricted to the
fields `createSecurityAnalyzer` reads.  `lastSecurityReview` is epoch
milliseconds.  The quantum security level is a bit count (128 / 192 / 256 in
the catalog), kept as `Nat`. -/
structure SecurityInfo where
  quantumSecurityLevel : Nat
  classicalSecurityLevel : ℚ
  knownVulnerabilities : List String
  lastSecurityReview : ℚ

/-- An `AlgorithmProfile`, restricted to the fields the security analyzer and
the weighting logic read. -/
structure AlgorithmProfile where
  quantumResistant : Bool
  security : SecurityInfo
  maturity : Maturity

/-- A `SelectionRequirements` object, restricted to the fields
`createSecurityAnalyzer` and `getWeightings` read. -/
structure SelectionRequirements where
  quantumResistance : Bool
  performance : String
  compliance : List String

/-- The `maturityBonus` table of the security analyzer. -/
def maturityBonus (m : Maturity) : ℚ :=
  match m with
  | .standardized => 1 / 10
  | .draft => 1 / 20
  | .experimental => 0
  | .deprecatedAlg => -(3 / 10)

/-- The tiered quantum-security-level bonus of the security analyzer. -/
def quantumLevelBonus (quantumSecurityLevel : Nat) : ℚ :=
  if 192 ≤ quantumSecurityLevel then 2 / 10
  else if 128 ≤ quantumSecurityLevel then 1 / 10
  else 0

/-- The final `Math.max(0, Math.min(score, 1))` clamp. -/
def clamp01 (x : ℚ) : ℚ := max 0 (min x 1)

/-- `createSecurityAnalyzer()`'s closure, with `Date.now()` as the explicit
`now` parameter. -/
def securityAnalyzer (now : ℚ) (algorithm : AlgorithmProfile)
    (req : SelectionRequirements) : ℚ :=
  let security := algorithm.security
  let score : ℚ :=
    if req.quantumResistance then
      if algorithm.quantumResistant then
        6 / 10 + quantumLevelBonus security.quantumSecurityLevel
      else 1 / 10
    else 4 / 10
  let classicalBonus := min (security.classicalSecurityLevel / 256) 1 * (2 / 10)
  let score := score + classicalBonus
  let score := score - (security.knownVulnerabilities.length : ℚ) * (1 / 10)
  let reviewAge := (now - security.lastSecurityReview) / (365 * 24 * 60 * 60 * 1000)
  let score := if 2 < reviewAge then score - 1 / 10 else score
  let score := score + maturityBonus algorithm.maturity
  clamp01 score

/-- The five component weights handled by `getWeightings`. -/
structure Weights where
  performance : ℚ
  security : ℚ
  compliance : ℚ
  compatibility : ℚ
  migration : ℚ

/-- `getWeightings`: the defaults followed by the three conditional
adjustments, in source order. -/
def getWeightings (req : SelectionRequirements) : Weights :=
  let weights : Weights :=
    { performance := 25 / 100
      security := 35 / 100
      compliance := 2 / 10
      compatibility := 1 / 10
      migration := 1 / 10 }
  let weights :=
    if req.quantumResistance then
      { weights with security := 45 / 100, performance := 2 / 10 }
    else weights
  let weights :=
    if req.performance = "high" then
      { weights with performance := 35 / 100, security := 3 / 10 }
    else weights
  let weights :=
    if req.compliance.length > 0 then
      { weights with compliance := 3 / 10, security := 3 / 10, performance := 2 / 10 }
    else weights
  weights

/-- `Object.values(weights).reduce((sum, w) => sum + w, 0)`. -/
def weightSum (w : Weights) : ℚ :=
  w.performance + w.security + w.compliance + w.compatibility + w.migration

/-- The five component scores computed at the top of `scoreAlgorithm`. -/
structure ComponentScores where
  performance : ℚ
  security : ℚ
  compliance : ℚ
  compatibility : ℚ
  migration : ℚ

/-- The numerator of `scoreAlgorithm`'s `overallScore` expression. -/
def rawWeightedSum (scores : ComponentScores) (w : Weights) : ℚ :=
  scores.performance * w.performance +
    scores.security * w.security +
    scores.compliance * w.compliance +
    scores.compatibility * w.compatibility +
    scores.migration * w.migration

/-- `overallScore` in `scoreAlgorithm`: the weighted sum of the component
scores divided by the sum of the weights. -/
def overallScore (scores : ComponentScores) (w : Weights) : ℚ :=
  rawWeightedSum scores w / weightSum w

/-! ## Part 4: `/register` handler (`src/backend/routes/auth.js`) -/

/-- A `users` row, restricted to the columns the register handler touches. -/
structure UserRow where
  id : Nat
  username : String
  email : String
  passwordHash : String
  role : String
  quantumClearanceLevel : Nat
deriving DecidableEq

/-- The HTTP outcome of the register handler. -/
structure RegisterResponse where
  status : Nat
  quantumShieldStatus : String
deriving DecidableEq

/-- Result of one register call: the response, the number of database
statements executed before responding, and the resulting `users` table. -/
structure RegisterResult where
  response : RegisterResponse
  dbQueries : Nat
  users : List UserRow
deriving DecidableEq

/-- `bcrypt.hash(password, 14)`: an external library, modelled as an opaque
tagging function (no modelled claim inspects hashes). -/
def bcryptHash (password : String) : String :=
  "bcrypt14:" ++ password

/-- The `{admin: 5, analyst: 3, user: 1}[role] || 1` clearance table. -/
def clearanceForRole (role : String) : Nat :=
  if role = "admin" then 5
  else if role = "analyst" then 3
  else if role = "user" then 1
  else 1

/-- The `POST /register` handler pipeline.  JavaScript-falsy missing fields
are modelled as the empty string; `uuidv4()` enters as the `newId`
parameter.  `dbQueries` counts the `executeQuery` calls made: 0 before the
validation gates, 1 for the existence check, 2 when the insert also runs. -/
def register (username email password role : String) (users : List UserRow)
    (newId : Nat) : RegisterResult :=
  if username = "" ∨ email = "" ∨ password = "" then
    ⟨⟨400, "validation_failed"⟩, 0, users⟩
  else if password.length < 12 then
    ⟨⟨400, "password_weak"⟩, 0, users⟩
  else if users.any (fun u => u.email = email ∨ u.username = username) then
    ⟨⟨409, "user_exists"⟩, 1, users⟩
  else
    let row : UserRow :=
      ⟨newId, username, email, bcryptHash password, role, clearanceForRole role⟩
    ⟨⟨201, "registration_success"⟩, 2, users ++ [row]⟩

/-! ## Part 5: `GET /compare` handler (`src/backend/routes/cryptographic.js`) -/

/-- A `cryptographic_algorithms` row, restricted to the columns the compare
handler reads (`performance_score` is nullable: `|| 0`). -/
structure AlgRow where
  id : String
  quantumResistanceLevel : Nat
  performanceScore : Option Nat
  securityStrength : Nat
  implementationStatus : String
deriving DecidableEq

/-- The `metrics` object of the comparison payload. -/
structure CompareMetrics where
  strongestQuantumResistance : Nat
  bestPerformance : Nat
  highestSecurity : Nat
  mostMature : Nat
deriving DecidableEq

/-- The response of the compare handler.  `generateComparisonRecommendations`
is a pure function of the fetched rows, so carrying the rows in the `ok`
payload determines it. -/
inductive CompareResponse where
  | badRequest (error : String) (quantumShieldStatus : String)
  | notFound (error : String) (quantumShieldStatus : String)
  | ok (algorithms : List AlgRow) (metrics : CompareMetrics)
deriving DecidableEq

/-- `Math.max(...)` over the mapped rows (the rows are non-empty wherever
this is evaluated). -/
def maxOfList (l : List Nat) : Nat := l.foldl max 0

/-- JavaScript `String.split(sep)`. -/
def jsSplit (sep : Char) (s : String) : List String :=
  (s.toList.splitOn sep).map (fun cs => String.mk cs)

/-- The compare pipeline after the `algorithmIds` list has been formed:
the `< 2` validation, the `WHERE id IN (...)` lookup, the row-count
not-found check, and the metrics. -/
def compareCore (algorithmIds : List String) (db : List AlgRow) : CompareResponse :=
  if algorithmIds.length < 2 then
    .badRequest "At least 2 algorithms required for comparison" "validation_failed"
  else
    let comparisonData := db.filter (fun r => algorithmIds.contains r.id)
    if comparisonData.length ≠ algorithmIds.length then
      .notFound "One or more algorithms not found" "algorithm_not_found"
    else
      .ok comparisonData
        ⟨maxOfList (comparisonData.map (fun r => r.quantumResistanceLevel)),
         maxOfList (comparisonData.map (fun r => r.performanceScore.getD 0)),
         maxOfList (comparisonData.map (fun r => r.securityStrength)),
         (comparisonData.filter (fun r => r.implementationStatus = "standardized")).length⟩

/-- The `GET /compare` handler: missing parameter check, then
`algorithms.split(',').slice(0, 5)`, then `compareCore`. -/
def compareHandler (algorithms : Option String) (db : List AlgRow) : CompareResponse :=
  match algorithms with
  | none => .badRequest "Algorithm IDs parameter is required" "validation_failed"
  | some s => compareCore ((jsSplit ',' s).take 5) db

/-! ## Demonstration states for concrete witnesses and counterexamples -/

/-- A signing key with the non-quantum algorithm RSA-2048, created at time 0
on a fresh service (used by the C1 witness). -/
def rsaKey : CryptographicKey :=
  (createKey "RSA-2048" 2048 .signing "default" initialState 0).1

/-- The service state holding `rsaKey` under id 0. -/
def rsaState : ServiceState :=
  (createKey "RSA-2048" 2048 .signing "default" initialState 0).2

/-- The original key of the rotation-chain scenario (claim C2). -/
def chainKey : CryptographicKey :=
  (createKey "RSA-2048" 2048 .signing "default" initialState 0).1

/-- Chain scenario, step 0: one freshly created key with id 0. -/
def chainState : ServiceState :=
  (createKey "RSA-2048" 2048 .signing "default" initialState 0).2

/-- Chain scenario, first rotation: rotate key 0 at time 100. -/
def chainStep1 : Except String CryptographicKey × ServiceState :=
  rotateKey 0 chainState 100

/-- Chain scenario, second rotation: rotate the successor (id 1) at
time 200. -/
def chainStep2 : Except String CryptographicKey × ServiceState :=
  rotateKey 1 chainStep1.2 200

/-- An encryption-purpose key whose algorithm happens to be the cataloged
CRYSTALS-Kyber (used by the C8 counterexample). -/
def kyberEncState : ServiceState :=
  (createKey "CRYSTALS-Kyber" 512 .encryption "default" initialState 0).2

/-- An encryption-purpose key with a non-cataloged algorithm (used by the C8
witness). -/
def aesKey : CryptographicKey :=
  (createKey "AES-256" 256 .encryption "default" initialState 0).1

/-- The service state holding `aesKey` under id 0. -/
def aesState : ServiceState :=
  (createKey "AES-256" 256 .encryption "default" initialState 0).2

/-- A system configuration used by the C6 witness. -/
def demoSystem : SystemConfiguration :=
  ⟨1, true, 3600, "alg-rsa", none⟩

/-! ## Helper lemmas -/

theorem createKey_fst_createdAt (a : String) (ks : Nat) (p : Purpose) (o : String)
    (s : ServiceState) (now : Nat) : ((createKey a ks p o s now).1).createdAt = now := rfl

theorem createKey_fst_expiresAt (a : String) (ks : Nat) (p : Purpose) (o : String)
    (s : ServiceState) (now : Nat) :
    ((createKey a ks p o s now).1).expiresAt = calculateExpirationDate a p now := rfl

theorem createKey_fst_algorithm (a : String) (ks : Nat) (p : Purpose) (o : String)
    (s : ServiceState) (now : Nat) : ((createKey a ks p o s now).1).algorithm = a := rfl

theorem createKey_fst_keySize (a : String) (ks : Nat) (p : Purpose) (o : String)
    (s : ServiceState) (now : Nat) : ((createKey a ks p o s now).1).keySize = ks := rfl

theorem createKey_fst_quantumResistant (a : String) (ks : Nat) (p : Purpose) (o : String)
    (s : ServiceState) (now : Nat) :
    ((createKey a ks p o s now).1).quantumResistant = isQuantumAlg a := rfl

theorem createKey_snd_rotationHistory (a : String) (ks : Nat) (p : Purpose) (o : String)
    (s : ServiceState) (now : Nat) :
    ((createKey a ks p o s now).2).rotationHistory = s.rotationHistory := by
  unfold createKey
  dsimp only
  split <;> rfl

theorem selectOptimalAlgorithm_signing (a : String) :
    selectOptimalAlgorithm .signing a = "CRYSTALS-Dilithium" := rfl

theorem selectOptimalAlgorithm_keyExchange (a : String) :
    selectOptimalAlgorithm .keyExchange a = "CRYSTALS-Kyber" := rfl

theorem selectOptimalAlgorithm_encryption (a : String) :
    selectOptimalAlgorithm .encryption a = a := rfl

/-! ## Claim theorems -/

/-- C5: `createKey` always produces a key with `expiresAt` strictly greater
than `createdAt`, and for a fixed purpose the base lifetime of a cataloged
quantum-resistant algorithm is strictly longer than that of a non-quantum
algorithm — the non-quantum lifetime is the quantum one halved. -/
theorem createKey_expiry_and_lifetimes :
    (∀ (algorithm : String) (keySize : Nat) (purpose : Purpose) (org : String)
        (s : ServiceState) (now : Nat),
      ((createKey algorithm keySize purpose org s now).1).createdAt <
        ((createKey algorithm keySize purpose org s now).1).expiresAt) ∧
    (∀ (algQ algN : String) (purpose : Purpose) (now : Nat),
      isQuantumAlg algQ = true → isQuantumAlg algN = false →
      (calculateExpirationDate algN purpose now - now =
        (calculateExpirationDate algQ purpose now - now) / 2 ∧
       calculateExpirationDate algN purpose now < calculateExpirationDate algQ purpose now)) := by
  constructor
  · intro algorithm keySize purpose org s now
    rw [createKey_fst_createdAt, createKey_fst_expiresAt]
    unfold calculateExpirationDate
    cases purpose <;> cases h : isQuantumAlg algorithm <;> simp [h]
  · intro algQ algN purpose now hq hn
    unfold calculateExpirationDate
    rw [hq, hn]
    cases purpose <;> simp

/-- Witness for C5 at concrete inputs: a Kyber key created at time 0, and the
signing-purpose lifetimes of CRYSTALS-Kyber versus RSA-2048. -/
theorem createKey_expiry_and_lifetimes_witness :
    ((createKey "CRYSTALS-Kyber" 512 .encryption "default" initialState 0).1).createdAt <
      ((createKey "CRYSTALS-Kyber" 512 .encryption "default" initialState 0).1).expiresAt ∧
    (calculateExpirationDate "RSA-2048" .signing 0 - 0 =
      (calculateExpirationDate "CRYSTALS-Kyber" .signing 0 - 0) / 2 ∧
     calculateExpirationDate "RSA-2048" .signing 0 <
      calculateExpirationDate "CRYSTALS-Kyber" .signing 0) :=
  ⟨createKey_expiry_and_lifetimes.1 "CRYSTALS-Kyber" 512 .encryption "default" initialState 0,
   createKey_expiry_and_lifetimes.2 "CRYSTALS-Kyber" "RSA-2048" .signing 0
     (by decide) (by decide)⟩

/-- C7: a registration with non-missing username, email, and password whose
password is shorter than 12 characters gets HTTP 400 with
`quantumShieldStatus` `password_weak`, zero database statements executed, and
an unchanged users table. -/
theorem register_short_password (username email password role : String)
    (users : List UserRow) (newId : Nat)
    (hu : username ≠ "") (he : email ≠ "") (hp : password ≠ "")
    (hlen : password.length < 12) :
    register username email password role users newId =
      ⟨⟨400, "password_weak"⟩, 0, users⟩ := by
  unfold register
  rw [if_neg (by simp [hu, he, hp]), if_pos hlen]

/-- Witness for C7: an 11-character password is rejected as `password_weak`
with no database access. -/
theorem register_short_password_witness :
    register "alice" "alice@q.io" "elevenchars" "user" [] 7 =
      ⟨⟨400, "password_weak"⟩, 0, []⟩ :=
  register_short_password "alice" "alice@q.io" "elevenchars" "user" [] 7
    (by decide) (by decide) (by decide) (by decide)

/-- C9: for a key id absent from the key store, `checkRotationTriggers`
returns `shouldRotate = false` with no reasons and does not throw, while
`rotateKey` on the same id returns the `Key ... not found` error and leaves
the whole service state (key store and rotation history) unchanged. -/
theorem missing_key_trigger_vs_rotate (s : ServiceState) (keyId now : Nat)
    (threatLevel : ℚ) (complianceIssues : List String)
    (h : lookupKey s keyId = none) :
    checkRotationTriggers keyId s now threatLevel complianceIssues = ⟨false, []⟩ ∧
    (rotateKey keyId s now).1 = .error ("Key " ++ toString keyId ++ " not found") ∧
    (rotateKey keyId s now).2 = s := by
  refine ⟨?_, ?_, ?_⟩ <;> simp [checkRotationTriggers, rotateKey, h]

/-- Witness for C9 on the empty service state at key id 0. -/
theorem missing_key_trigger_vs_rotate_witness :
    checkRotationTriggers 0 initialState 5 0 [] = ⟨false, []⟩ ∧
    (rotateKey 0 initialState 5).1 = .error ("Key " ++ toString 0 ++ " not found") ∧
    (rotateKey 0 initialState 5).2 = initialState :=
  missing_key_trigger_vs_rotate initialState 0 5 0 [] rfl

/-- C10: the compare handler splits the `algorithms` query parameter on
commas and truncates to the first five ids before the `< 2` validation, the
lookup, and the not-found check, so two parameters agreeing on their first
five comma-separated ids produce identical responses — ids beyond the fifth
never affect the outcome. -/
theorem compare_truncates_to_five (s1 s2 : String) (db : List AlgRow)
    (h : (jsSplit ',' s1).take 5 = (jsSplit ',' s2).take 5) :
    compareHandler (some s1) db = compareHandler (some s2) db := by
  simp only [compareHandler, h]

/-- Witness for C10: a sixth id is silently discarded. -/
theorem compare_truncates_to_five_witness :
    compareHandler (some "alg-a,alg-b,alg-c,alg-d,alg-e,alg-f") [] =
      compareHandler (some "alg-a,alg-b,alg-c,alg-d,alg-e") [] :=
  compare_truncates_to_five "alg-a,alg-b,alg-c,alg-d,alg-e,alg-f"
    "alg-a,alg-b,alg-c,alg-d,alg-e" [] (by decide)

/-- C6: one scheduled scan issues `performKeyRotation(_, 'scheduled', _)`
exactly for the configurations with auto-rotation enabled whose elapsed time
since the latest completed rotation-history entry (the epoch when none
exists) is at least the configured interval; every invocation it issues
carries the trigger `scheduled`. -/
theorem scheduled_scan_exact (systems : List SystemConfiguration)
    (history : List RotationHistoryRow) (now : Int) (sc : SystemConfiguration) :
    ((sc, "scheduled") ∈ checkScheduledRotations systems history now ↔
      (sc ∈ systems ∧ sc.autoRotationEnabled = true ∧
        (sc.keyRotationInterval : Int) * 1000 ≤
          now - (lastCompletedRotation history sc.id).getD 0)) ∧
    (∀ x ∈ checkScheduledRotations systems history now, x.2 = "scheduled") := by
  constructor
  · simp only [checkScheduledRotations, dueForScheduledRotation, List.mem_filter,
      List.mem_map, Prod.mk.injEq, decide_eq_true_eq, and_true, and_assoc]
    constructor
    · rintro ⟨a, ha, h1, h2, rfl⟩
      exact ⟨ha, h1, h2⟩
    · rintro ⟨ha, h1, h2⟩
      exact ⟨sc, ha, h1, h2, rfl⟩
  · intro x hx
    simp only [checkScheduledRotations, List.mem_map] at hx
    obtain ⟨a, -, rfl⟩ := hx
    rfl

/-- Witness for C6: a due system is rotated with trigger `scheduled`. -/
theorem scheduled_scan_exact_witness :
    (demoSystem, "scheduled") ∈ checkScheduledRotations [demoSystem] [] 3600000 :=
  (scheduled_scan_exact [demoSystem] [] 3600000 demoSystem).1.mpr
    ⟨by decide, by decide, by decide⟩

theorem clamp01_nonneg (x : ℚ) : 0 ≤ clamp01 x := le_max_left 0 _

theorem clamp01_le_one (x : ℚ) : clamp01 x ≤ 1 := max_le (by norm_num) (min_le_right x 1)

theorem clamp01_mono {x y : ℚ} (h : x ≤ y) : clamp01 x ≤ clamp01 y :=
  max_le_max le_rfl (min_le_min h le_rfl)

theorem quantumLevelBonus_mono {q1 q2 : Nat} (h : q1 ≤ q2) :
    quantumLevelBonus q1 ≤ quantumLevelBonus q2 := by
  unfold quantumLevelBonus
  split_ifs <;> norm_num <;> omega

/-- C3: the security analyzer's score always lies in `[0, 1]`, and — holding
the requirements and every other profile field constant — it is monotonically
non-decreasing in the profile's `quantumSecurityLevel`. -/
theorem securityScore_bounds_and_monotone :
    (∀ (now : ℚ) (alg : AlgorithmProfile) (req : SelectionRequirements),
      0 ≤ securityAnalyzer now alg req ∧ securityAnalyzer now alg req ≤ 1) ∧
    (∀ (now : ℚ) (alg : AlgorithmProfile) (req : SelectionRequirements) (q1 q2 : Nat),
      q1 ≤ q2 →
      securityAnalyzer now
          { alg with security := { alg.security with quantumSecurityLevel := q1 } } req ≤
        securityAnalyzer now
          { alg with security := { alg.security with quantumSecurityLevel := q2 } } req) := by
  constructor
  · intro now alg req
    exact ⟨clamp01_nonneg _, clamp01_le_one _⟩
  · intro now alg req q1 q2 h
    have hb := quantumLevelBonus_mono h
    simp only [securityAnalyzer]
    apply clamp01_mono
    split_ifs <;> linarith

/-- Witness for C3: bounds at a concrete profile, and monotonicity from
level 128 to level 192. -/
theorem securityScore_bounds_and_monotone_witness :
    (0 ≤ securityAnalyzer 0 ⟨true, ⟨128, 128, [], 0⟩, .standardized⟩ ⟨true, "medium", []⟩ ∧
      securityAnalyzer 0 ⟨true, ⟨128, 128, [], 0⟩, .standardized⟩ ⟨true, "medium", []⟩ ≤ 1) ∧
    securityAnalyzer 0
        ⟨true, ⟨128, 128, [], 0⟩, .standardized⟩ ⟨true, "medium", []⟩ ≤
      securityAnalyzer 0
        ⟨true, ⟨192, 128, [], 0⟩, .standardized⟩ ⟨true, "medium", []⟩ :=
  ⟨securityScore_bounds_and_monotone.1 0 ⟨true, ⟨128, 128, [], 0⟩, .standardized⟩
      ⟨true, "medium", []⟩,
   securityScore_bounds_and_monotone.2 0 ⟨true, ⟨128, 128, [], 0⟩, .standardized⟩
      ⟨true, "medium", []⟩ 128 192 (by decide)⟩

/-- C4 counterexample: when quantum resistance is requested, the adjusted
weights sum to 1.05 ≠ 1, but `scoreAlgorithm` divides the weighted sum by
that total, so the overall score of uniform component scores 1 is 1, not the
raw weighted sum 1.05 — the drift is divided out, contradicting the claim
that the raw weighted sum is used without renormalization. -/
theorem drift_not_preserved_cex :
    weightSum (getWeightings ⟨true, "medium", []⟩) = 105 / 100 ∧
    rawWeightedSum ⟨1, 1, 1, 1, 1⟩ (getWeightings ⟨true, "medium", []⟩) = 105 / 100 ∧
    overallScore ⟨1, 1, 1, 1, 1⟩ (getWeightings ⟨true, "medium", []⟩) = 1 ∧
    overallScore ⟨1, 1, 1, 1, 1⟩ (getWeightings ⟨true, "medium", []⟩) ≠
      rawWeightedSum ⟨1, 1, 1, 1, 1⟩ (getWeightings ⟨true, "medium", []⟩) := by
  have hw : getWeightings ⟨true, "medium", []⟩ =
      ⟨2 / 10, 45 / 100, 2 / 10, 1 / 10, 1 / 10⟩ := rfl
  rw [hw]
  refine ⟨?_, ?_, ?_, ?_⟩ <;> norm_num [weightSum, rawWeightedSum, overallScore]

/-- C4 (amended): `getWeightings` can produce weights whose sum differs
from 1 (1.05 when quantum resistance is requested), but the overall
recommendation score divides the weighted sum by the sum of the weights, so
the drift is divided out: uniform component scores `c` always yield overall
score exactly `c`. -/
theorem weights_drift_renormalized :
    (∃ req : SelectionRequirements, weightSum (getWeightings req) ≠ 1) ∧
    (∀ (req : SelectionRequirements) (c : ℚ),
      overallScore ⟨c, c, c, c, c⟩ (getWeightings req) = c) := by
  constructor
  · refine ⟨⟨true, "medium", []⟩, ?_⟩
    have hw : getWeightings ⟨true, "medium", []⟩ =
        ⟨2 / 10, 45 / 100, 2 / 10, 1 / 10, 1 / 10⟩ := rfl
    rw [hw]
    norm_num [weightSum]
  · intro req c
    have hs : weightSum (getWeightings req) ≠ 0 := by
      simp only [getWeightings, weightSum]
      split_ifs <;> norm_num
    have hr : rawWeightedSum ⟨c, c, c, c, c⟩ (getWeightings req) =
        c * weightSum (getWeightings req) := by
      simp only [rawWeightedSum, weightSum]
      ring
    unfold overallScore
    rw [hr, mul_div_assoc, div_self hs, mul_one]

theorem selectOptimalKeySize_of_not_quantum {a : String} (h : isQuantumAlg a = false)
    (c : Nat) : selectOptimalKeySize a c = c := by
  unfold selectOptimalKeySize
  have hf : quantumAlgorithms.find? (fun p => p.1 = a) = none := by
    rw [List.find?_eq_none]
    intro p hp
    simp only [decide_eq_true_eq]
    intro hpa
    have hmem : a ∈ quantumAlgorithms.map Prod.fst := by
      rw [← hpa]
      exact List.mem_map_of_mem Prod.fst hp
    have h2 : (quantumAlgorithms.map Prod.fst).contains a = true :=
      List.elem_eq_true_of_mem hmem
    rw [isQuantumAlg, h2] at h
    exact Bool.noConfusion h
  rw [hf]

/-- C1: for a stored key, `rotateKey` succeeds and its successor's algorithm
is quantum-resistant whenever some catalog entry matches the key's purpose;
a signing key (e.g. one with algorithm RSA-2048) always gets
CRYSTALS-Dilithium, the first entry of the signing preference list present in
the catalog; and the fallback to the current algorithm happens only when no
catalog entry matches the purpose. -/
theorem rotateKey_prefers_quantum (s : ServiceState) (now keyId : Nat)
    (k : CryptographicKey) (hk : lookupKey s keyId = some k) :
    ∃ newKey, (rotateKey keyId s now).1 = .ok newKey ∧
      ((∃ p ∈ quantumAlgorithms, p.2.purpose = k.purpose) →
        newKey.quantumResistant = true) ∧
      (k.purpose = .signing → newKey.algorithm = "CRYSTALS-Dilithium") ∧
      ((∀ p ∈ quantumAlgorithms, p.2.purpose ≠ k.purpose) →
        newKey.algorithm = k.algorithm) := by
  refine ⟨(createKey (selectOptimalAlgorithm k.purpose k.algorithm)
      (selectOptimalKeySize (selectOptimalAlgorithm k.purpose k.algorithm) k.keySize)
      k.purpose "default" s now).1, ?_, ?_, ?_, ?_⟩
  · simp [rotateKey, hk]
  · rintro ⟨p, hp, hpur⟩
    rw [createKey_fst_quantumResistant]
    cases hc : k.purpose
    · exfalso
      have hnone : ∀ q ∈ quantumAlgorithms, q.2.purpose ≠ Purpose.encryption := by decide
      exact hnone p hp (hc ▸ hpur)
    · rw [selectOptimalAlgorithm_signing]
      decide
    · rw [selectOptimalAlgorithm_keyExchange]
      decide
  · intro hsig
    rw [createKey_fst_algorithm, hsig, selectOptimalAlgorithm_signing]
  · intro hnone
    cases hc : k.purpose
    · rw [createKey_fst_algorithm, selectOptimalAlgorithm_encryption]
    · exfalso
      have hmem : ("CRYSTALS-Dilithium",
          (⟨[2420, 3309, 4627], .signing, 128⟩ : AlgSpec)) ∈ quantumAlgorithms := by decide
      exact hnone _ hmem hc.symm
    · exfalso
      have hmem : ("CRYSTALS-Kyber",
          (⟨[512, 768, 1024], .keyExchange, 128⟩ : AlgSpec)) ∈ quantumAlgorithms := by decide
      exact hnone _ hmem hc.symm

/-- Witness for C1: rotating the stored RSA-2048 signing key yields a
quantum-resistant CRYSTALS-Dilithium successor. -/
theorem rotateKey_prefers_quantum_witness :
    ∃ newKey, (rotateKey 0 rsaState 10).1 = .ok newKey ∧
      ((∃ p ∈ quantumAlgorithms, p.2.purpose = rsaKey.purpose) →
        newKey.quantumResistant = true) ∧
      (rsaKey.purpose = .signing → newKey.algorithm = "CRYSTALS-Dilithium") ∧
      ((∀ p ∈ quantumAlgorithms, p.2.purpose ≠ rsaKey.purpose) →
        newKey.algorithm = rsaKey.algorithm) :=
  rotateKey_prefers_quantum rsaState 10 0 rsaKey rfl

/-- C2 counterexample: create one key (id 0) and call `rotateKey` twice, each
time on the most recent descendant (rotate 0 at time 100, then its successor
1 at time 200).  `getRotationHistory` keys entries by the rotated key's own
id, so no key of the chain has a history list of length 2: id 0 holds `[100]`,
id 1 holds `[200]`, and the final key 2 holds `[]`. -/
theorem rotation_history_chain_cex :
    (chainStep1.1.toOption.map fun k => k.id) = some 1 ∧
    (chainStep2.1.toOption.map fun k => k.id) = some 2 ∧
    getRotationHistory chainStep2.2 0 = [100] ∧
    getRotationHistory chainStep2.2 1 = [200] ∧
    getRotationHistory chainStep2.2 2 = [] ∧
    (getRotationHistory chainStep2.2 0).length ≠ 2 ∧
    (getRotationHistory chainStep2.2 1).length ≠ 2 :=
  ⟨rfl, rfl, rfl, rfl, rfl, by decide, by decide⟩

/-- C2 (amended): rotation history is append-only per key id — each
successful `rotateKey` appends exactly one entry (the rotation time) to the
rotated key's own history and leaves every other key's history unchanged.
A chain of N rotations therefore spreads N entries one per rotated key: the
history of any single chain member has length 1 (as `rotation_history_chain_cex`
shows), and only rotating the same id N times yields one list of length N. -/
theorem rotation_history_append (s : ServiceState) (now keyId : Nat)
    (k : CryptographicKey) (hk : lookupKey s keyId = some k) :
    getRotationHistory (rotateKey keyId s now).2 keyId =
      getRotationHistory s keyId ++ [now] ∧
    ∀ j, j ≠ keyId →
      getRotationHistory (rotateKey keyId s now).2 j = getRotationHistory s j := by
  constructor
  · simp [rotateKey, hk, getRotationHistory, mapSet, createKey_snd_rotationHistory]
  · intro j hj
    simp [rotateKey, hk, getRotationHistory, mapSet, createKey_snd_rotationHistory, hj]

/-- Witness for C2 (amended): rotating key 0 at time 100 appends 100 to key
0's history and leaves key 5's history unchanged. -/
theorem rotation_history_append_witness :
    getRotationHistory (rotateKey 0 chainState 100).2 0 =
      getRotationHistory chainState 0 ++ [100] ∧
    getRotationHistory (rotateKey 0 chainState 100).2 5 =
      getRotationHistory chainState 5 :=
  ⟨(rotation_history_append chainState 100 0 chainKey rfl).1,
   (rotation_history_append chainState 100 0 chainKey rfl).2 5 (by decide)⟩

/-- C8 counterexample: the stored key 0 has purpose `encryption`, the
cataloged algorithm CRYSTALS-Kyber, and key size 512.  Rotation keeps the
algorithm (the fallback branch) but `selectOptimalKeySize` finds Kyber in the
catalog and returns the maximal size 1024 ≠ 512, contradicting the claim that
the successor keeps the same key size for every encryption key. -/
theorem encryption_key_size_upgraded_cex :
    ((lookupKey kyberEncState 0).map fun k => k.purpose) = some .encryption ∧
    ((lookupKey kyberEncState 0).map fun k => k.algorithm) = some "CRYSTALS-Kyber" ∧
    ((lookupKey kyberEncState 0).map fun k => k.keySize) = some 512 ∧
    ((rotateKey 0 kyberEncState 1).1.toOption.map fun k => k.algorithm) =
      some "CRYSTALS-Kyber" ∧
    ((rotateKey 0 kyberEncState 1).1.toOption.map fun k => k.keySize) = some 1024 ∧
    (1024 : Nat) ≠ 512 :=
  ⟨rfl, rfl, rfl, rfl, rfl, by decide⟩

/-- C8 (amended): the catalog has no entry of purpose `encryption`, so for
every stored encryption key `rotateKey` takes the fallback branch and keeps
the current algorithm; the successor's key size is
`selectOptimalKeySize` of that algorithm, which equals the rotated key's size
exactly when the algorithm is not itself cataloged (otherwise it becomes the
catalog's maximal size for that algorithm). -/
theorem encryption_rotation_fallback :
    (∀ p ∈ quantumAlgorithms, p.2.purpose ≠ Purpose.encryption) ∧
    (∀ (s : ServiceState) (now keyId : Nat) (k : CryptographicKey),
      lookupKey s keyId = some k → k.purpose = .encryption →
      ∃ newKey, (rotateKey keyId s now).1 = .ok newKey ∧
        newKey.algorithm = k.algorithm ∧
        newKey.keySize = selectOptimalKeySize k.algorithm k.keySize ∧
        (isQuantumAlg k.algorithm = false → newKey.keySize = k.keySize)) := by
  constructor
  · decide
  · intro s now keyId k hk hpur
    refine ⟨(createKey (selectOptimalAlgorithm k.purpose k.algorithm)
        (selectOptimalKeySize (selectOptimalAlgorithm k.purpose k.algorithm) k.keySize)
        k.purpose "default" s now).1, ?_, ?_, ?_, ?_⟩
    · simp [rotateKey, hk]
    · rw [createKey_fst_algorithm, hpur, selectOptimalAlgorithm_encryption]
    · rw [createKey_fst_keySize, hpur, selectOptimalAlgorithm_encryption]
    · intro hq
      rw [createKey_fst_keySize, hpur, selectOptimalAlgorithm_encryption,
        selectOptimalKeySize_of_not_quantum hq]

/-- Witness for C8 (amended): a non-cataloged AES-256 encryption key keeps
both its algorithm and its key size across rotation. -/
theorem encryption_rotation_fallback_witness :
    (∀ p ∈ quantumAlgorithms, p.2.purpose ≠ Purpose.encryption) ∧
    ∃ newKey, (rotateKey 0 aesState 1).1 = .ok newKey ∧
      newKey.algorithm = aesKey.algorithm ∧
      newKey.keySize = selectOptimalKeySize aesKey.algorithm aesKey.keySize ∧
      (isQuantumAlg aesKey.algorithm = false → newKey.keySize = aesKey.keySize) :=
  ⟨encryption_rotation_fallback.1,
   encryption_rotation_fallback.2 aesState 1 0 aesKey rfl rfl⟩

end QuantumShield
